import Mathlib

/-!
# Verification of the StaRosaAM data pipeline

Shallow embedding of the repository's data normalization / aggregation
pipeline (`cargar.py`, `app.py`) and of the retrying remote-query client
(`api.py`), together with theorems settling the specification claims.

Numeric cell values are modelled as rationals (`ℚ`); the floating-point
"NaN" marker produced by pandas is modelled as `Option ℚ` with `none`
standing for NaN/NaT.
-/

namespace StaRosaAM

/-! ## Raw cells and numeric coercion (`cargar.py` lines 54-58, 91-95;
`app.py` `limpiar_columnas_numericas` lines 21-36) -/

/-- A raw spreadsheet cell of the amount column, as the pipeline's
library calls distinguish them: a cell that parses as a number, a
non-numeric text cell, or a missing/NA cell. -/
inductive RawCell where
  | numeric (q : ℚ)
  | texto (s : String)
  | vacio
  deriving DecidableEq, Repr

/-- `pd.to_numeric(col, errors="coerce")` on one cell: a parseable cell
yields its number, everything else yields NaN (`none`). -/
def toNumericCoerce : RawCell → Option ℚ
  | .numeric q => some q
  | .texto _ => none
  | .vacio => none

/-- `pd.to_numeric(col, errors="coerce").fillna(0)` on one cell
(`cargar.py` lines 56 and 93): the coercion with NaN replaced by `0`. -/
def coerceValor (c : RawCell) : ℚ :=
  (toNumericCoerce c).getD 0

/-- `limpiar_columnas_numericas` (`app.py` lines 21-36) applied to one
raw cell: `float(valor) if pd.notna(valor) else 0.0`, with any
`ValueError`/`TypeError` from `float` mapped to `0.0`. -/
def limpiarValorApp : RawCell → ℚ
  | .numeric q => q
  | .texto _ => 0
  | .vacio => 0

/-- `limpiar_columnas_numericas` applied to a float-or-NaN column (the
variation columns of `calcular_variaciones_seguras`, `app.py` lines
234-236): `pd.notna` is false exactly on NaN, so NaN becomes `0.0` and
every numeric value is kept. -/
def limpiarColumnaOpcional (xs : List (Option ℚ)) : List ℚ :=
  xs.map (fun v => v.getD 0)

/-! ## The record loader (`cargar.py` `cargar_datos`) -/

/-- A calendar date as `pd.to_datetime` produces it; only the fields the
loader derives (`dt.year`, `dt.month`, `dt.quarter`) matter. -/
structure Fecha where
  anio : ℤ
  mes : ℕ
  dia : ℕ
  deriving DecidableEq, Repr

/-- A raw row of one input table after `pd.to_datetime(..., errors="coerce")`
on the date column: `none` is NaT (an unparseable date). -/
structure FilaCruda where
  fecha : Option Fecha
  marca : String
  valor : RawCell
  deriving DecidableEq, Repr

/-- A raw input table: its rows plus whether the expected amount column
(`"Valor"` for imports, `"VALOR"` for registrations after the rename of
`cargar.py` lines 78-81) is present at all. -/
structure TablaCruda where
  filas : List FilaCruda
  tieneValor : Bool
  deriving DecidableEq, Repr

/-- A persisted canonical row: the date column after the dropna (still
optional-valued as a column, though every surviving value is non-null),
the derived time fields, the normalized brand, the coerced amount
(`none` when the amount column was absent from the source), and the
composite display key. -/
structure FilaCanonica where
  fecha : Option Fecha
  anio : ℤ
  mes : ℕ
  trimestre : ℕ
  marca : String
  valor : Option ℚ
  combinada : String
  deriving DecidableEq, Repr

/-- `dt.quarter`: the quarter of a month (1-4 for months 1-12). -/
def trimestreDe (mes : ℕ) : ℕ := (mes + 2) / 3

/-- One surviving raw row turned into a canonical row (`cargar.py` lines
46-63 / 83-100): derive `Año`/`Mes`/`Trimestre` from the date, trim and
upper-case the brand, coerce the amount when the column exists, and
build the `Combinada` key `MARCA-mes/anio`. -/
def mkCanonica (tieneValor : Bool) (r : FilaCruda) : FilaCanonica :=
  let f := r.fecha.getD ⟨0, 0, 0⟩
  let m := r.marca.trim.toUpper
  { fecha := r.fecha
    anio := f.anio
    mes := f.mes
    trimestre := trimestreDe f.mes
    marca := m
    valor := if tieneValor then some (coerceValor r.valor) else none
    combinada := m ++ "-" ++ toString f.mes ++ "/" ++ toString f.anio }

/-- The per-table body of `cargar_datos` (`cargar.py` lines 38-63 for
imports, 69-100 for registrations): coerce the date column, drop the
rows whose date is NaT, then derive the canonical columns.  When the
amount column is absent the code only prints a warning (lines 57-58,
94-95) and continues. -/
def cargarTabla (t : TablaCruda) : List FilaCanonica :=
  (t.filas.filter (fun r => r.fecha.isSome)).map (mkCanonica t.tieneValor)

/-! ## Period-over-period percentage change
(`app.py` `calcular_pct_change_seguro`, lines 203-212, and
`calcular_variaciones_seguras`, lines 195-242) -/

/-- `Series.fillna(method="pad")` — the forward fill `pct_change`
applies by default: each NaN is replaced by the most recent non-NaN
value before it; leading NaNs (no earlier value) stay NaN.  `last` is
the most recent non-NaN value seen so far. -/
def ffillDesde : Option ℚ → List (Option ℚ) → List (Option ℚ)
  | _, [] => []
  | last, x :: xs =>
    match x with
    | some v => some v :: ffillDesde (some v) xs
    | none => last :: ffillDesde last xs

/-- Forward fill of a whole column (nothing precedes the first entry). -/
def ffillColumna (s : List (Option ℚ)) : List (Option ℚ) :=
  ffillDesde none s

/-- One entry of `Series.pct_change(periods)` over the already
forward-filled series, multiplied by 100: NaN for the first `periods`
positions, NaN when either operand is still NaN after the fill,
`(cur - prev) / prev * 100` otherwise (with a zero divisor mapped to
NaN, standing for the `replace([inf, -inf], nan)` of line 209). -/
def pctChangeEntry (s : List (Option ℚ)) (periods i : ℕ) : Option ℚ :=
  if periods ≤ i then
    match s.getD i none, s.getD (i - periods) none with
    | some cur, some prev => if prev = 0 then none else some ((cur - prev) / prev * 100)
    | _, _ => none
  else none

/-- `calcular_pct_change_seguro(series, periods)` (`app.py` lines
203-212): replace `0` with NaN, apply `Series.pct_change(periods)` with
the pandas default `fill_method='pad'` — the NaNs are forward-filled
before dividing, so only positions with no preceding non-zero value
keep NaN — multiply by 100, and replace `±inf` with NaN (a dead guard
here: a forward-filled divisor is never zero). -/
def calcularPctChangeSeguro (series : List ℚ) (periods : ℕ) : List (Option ℚ) :=
  let s : List (Option ℚ) := series.map (fun x => if x = 0 then none else some x)
  let filled := ffillColumna s
  (List.range series.length).map (pctChangeEntry filled periods)

/-- The variation columns one input column of
`calcular_variaciones_seguras` (`app.py` lines 195-242) produces. -/
structure Variaciones where
  yoy : List ℚ
  mom : List ℚ
  qoq : List ℚ
  deriving DecidableEq, Repr

/-- `calcular_variaciones_seguras` on one (already numeric) column:
YoY with lag 12 (all-NaN when fewer than 12 rows), MoM with lag 1, QoQ
with lag 3 (all-NaN when fewer than 3 rows), followed by the final
numeric cleanup `limpiar_columnas_numericas` of lines 234-236, which
turns every NaN into `0.0`. -/
def calcularVariacionesSeguras (col : List ℚ) : Variaciones :=
  let yoyRaw := if 12 ≤ col.length then calcularPctChangeSeguro col 12
                else List.replicate col.length none
  let momRaw := calcularPctChangeSeguro col 1
  let qoqRaw := if 3 ≤ col.length then calcularPctChangeSeguro col 3
                else List.replicate col.length none
  { yoy := limpiarColumnaOpcional yoyRaw
    mom := limpiarColumnaOpcional momRaw
    qoq := limpiarColumnaOpcional qoqRaw }

/-! ## Top-N by brand (`app.py` `crear_grafico_marcas` line 347,
`crear_graficos_variaciones` lines 779-780) -/

/-- A row as the brand aggregation sees it: a brand and an amount. -/
structure FilaMarca where
  marca : String
  valor : ℚ
  deriving DecidableEq, Repr

/-- The ascending order on brand names (lexicographic on the character
sequence), the order pandas lists group keys in. -/
def leMarca (a b : String) : Prop := a.data ≤ b.data

instance : DecidableRel leMarca := fun a b => inferInstanceAs (Decidable (a.data ≤ b.data))

instance : IsTotal String leMarca := ⟨fun a b => le_total a.data b.data⟩

instance : IsTrans String leMarca := ⟨fun _ _ _ h h' => le_trans h h'⟩

instance : IsAntisymm String leMarca :=
  ⟨fun a b h h' => by
    cases a; cases b
    exact congrArg String.mk (le_antisymm h h')⟩

/-- `df.groupby('Marca')[col].sum()`: pandas `groupby` with the default
`sort=True` lists the group keys in ascending order (the original row
order of the keys is discarded), each with the sum of its group's
amounts. -/
def groupbySumMarca (rows : List FilaMarca) : List (String × ℚ) :=
  let claves := ((rows.map (·.marca)).dedup).insertionSort leMarca
  claves.map (fun k => (k, ((rows.filter (fun r => r.marca = k)).map (·.valor)).sum))

/-- `.sort_values(ascending=False)` on the grouped series: a descending
sort by total that keeps the incoming (key-sorted) order on ties, as
numpy's sort does on the small arrays at issue here. -/
def sortValuesDesc (l : List (String × ℚ)) : List (String × ℚ) :=
  l.insertionSort (fun a b => b.2 ≤ a.2)

/-- The aggregation of `crear_grafico_marcas` (`app.py` line 347):
`df.groupby('Marca')[valor_col].sum().sort_values(ascending=False).head(10)`. -/
def crearGraficoMarcas (rows : List FilaMarca) : List (String × ℚ) :=
  (sortValuesDesc (groupbySumMarca rows)).take 10

/-! ## YoY point comparison (`app.py` `combinar_datos_actual_anterior`,
lines 944-968) -/

/-- A monthly aggregated row as the YoY comparison page sees it. -/
structure FilaAgg where
  marca : String
  anio : ℤ
  mes : ℕ
  valor : ℚ
  deriving DecidableEq, Repr

/-- The month selection of `app.py` lines 923-941: rows of year `a` and
month `mes`. -/
def filtrarMes (rows : List FilaAgg) (a : ℤ) (mes : ℕ) : List FilaAgg :=
  rows.filter (fun r => r.anio = a ∧ r.mes = mes)

/-- `actual[actual['Marca'] == marca][col].sum()` (`app.py` lines
955-956). -/
def sumMarca (rows : List FilaAgg) (m : String) : ℚ :=
  ((rows.filter (fun r => r.marca = m)).map (·.valor)).sum

/-- The YoY variation of `app.py` line 959 (and line 1106):
`((valor_actual - valor_anterior) / valor_anterior * 100) if
valor_anterior > 0 else 0`. -/
def variacionYoYPuntual (valorActual valorAnterior : ℚ) : ℚ :=
  if 0 < valorAnterior then (valorActual - valorAnterior) / valorAnterior * 100 else 0

/-- The `Variacion_YoY` field `combinar_datos_actual_anterior` computes
for one brand (`app.py` lines 954-966), starting from the unfiltered
monthly aggregate: current value = sum over the brand in (year, month),
prior value = sum over the brand in (year-1, month). -/
def combinarVariacionYoY (rows : List FilaAgg) (a : ℤ) (mes : ℕ) (m : String) : ℚ :=
  variacionYoYPuntual (sumMarca (filtrarMes rows a mes) m)
    (sumMarca (filtrarMes rows (a - 1) mes) m)

/-! ## The remote query client (`api.py` `consultar_magic_loops`) -/

/-- A Python value as the payload dictionaries hold them. -/
inductive Val where
  | str (s : String)
  | num (q : ℚ)
  deriving DecidableEq, Repr

/-- A Python dict: an insertion-ordered association list. -/
abbrev Obj := List (String × Val)

/-- The object store: dict objects addressed by reference (index). -/
abbrev Store := List Obj

/-- Python dict assignment `d[k] = v`: update the key in place when it
exists, else append it. -/
def dictSet (o : Obj) (k : String) (v : Val) : Obj :=
  if o.any (fun p => p.1 = k) then
    o.map (fun p => if p.1 = k then (k, v) else p)
  else o ++ [(k, v)]

/-- `d[k]` lookup. -/
def dictGet (o : Obj) (k : String) : Option Val :=
  (o.find? (fun p => p.1 = k)).map (·.2)

/-- The `datos` argument of `consultar_magic_loops`: either a reference
to a dict in the store (`isinstance(datos, dict)` true) or a non-dict
scalar. -/
inductive Datos where
  | dictRef (r : ℕ)
  | scalar (v : Val)
  deriving DecidableEq, Repr

/-- The payload preparation of `consultar_magic_loops` (`api.py` lines
24-27): `payload = datos.copy() if isinstance(datos, dict) else
{"data": datos}`, then `payload["pregunta"] = pregunta.strip()` only
when `pregunta` is supplied and non-blank.  The copy is a fresh object
appended to the store; the write targets the fresh reference.  Returns
the new store and the payload's reference. -/
def prepararPayload (store : Store) (datos : Datos) (pregunta : Option String) :
    Store × ℕ :=
  let obj : Obj :=
    match datos with
    | .dictRef r => store.getD r []
    | .scalar v => [("data", v)]
  let ref := store.length
  let store1 := store ++ [obj]
  match pregunta with
  | some p =>
      if p.trim ≠ "" then (store1.set ref (dictSet obj "pregunta" (.str p.trim)), ref)
      else (store1, ref)
  | none => (store1, ref)

/-- `MAX_PAYLOAD_SIZE` (`api.py` line 9). -/
def MAX_PAYLOAD_SIZE : ℕ := 500000

/-- `MAX_RETRIES` (`api.py` line 11). -/
def MAX_RETRIES : ℕ := 3

/-- What one `session.post` attempt can come back with: an HTTP status
with a body, a timeout, a transport-level `RequestException`, or any
other exception. -/
inductive RespuestaHTTP where
  | status (code : ℕ) (body : String)
  | timeout
  | requestError (msg : String)
  | unexpectedError (msg : String)
  deriving DecidableEq, Repr

/-- The value `consultar_magic_loops` returns: the parsed success body
or one of the typed error dicts. -/
inductive ResultadoAPI where
  | exito (body : String)
  | errorTooLarge
  | errorHTTP (code : ℕ)
  | errorTimeout
  | errorConexion (msg : String)
  | errorInesperado (msg : String)
  | errorAgotado
  deriving DecidableEq, Repr

/-- One run of the client: its result, how many network calls
(`session.post`) it made, and the seconds slept between attempts, in
order. -/
structure Ejecucion where
  resultado : ResultadoAPI
  llamadas : ℕ
  esperas : List ℕ
  deriving DecidableEq, Repr

/-- The retry loop of `consultar_magic_loops` (`api.py` lines 38-72),
run over the remaining attempt indices (`for intento in
range(MAX_RETRIES)`); `respuestas` is the network oracle giving each
attempt's outcome.  A 200 status returns the parsed body; any other
status, a timeout or a `RequestException` sleeps `2 ** intento` seconds
and retries unless this was the last attempt, in which case the typed
error is returned; any other exception returns immediately. -/
def bucleReintentos (respuestas : ℕ → RespuestaHTTP) :
    List ℕ → ℕ → List ℕ → Ejecucion
  | [], llamadas, esperas => ⟨.errorAgotado, llamadas, esperas.reverse⟩
  | intento :: resto, llamadas, esperas =>
    match respuestas intento with
    | .status code body =>
        if code = 200 then ⟨.exito body, llamadas + 1, esperas.reverse⟩
        else if resto ≠ [] then
          bucleReintentos respuestas resto (llamadas + 1) (2 ^ intento :: esperas)
        else ⟨.errorHTTP code, llamadas + 1, esperas.reverse⟩
    | .timeout =>
        if resto ≠ [] then
          bucleReintentos respuestas resto (llamadas + 1) (2 ^ intento :: esperas)
        else ⟨.errorTimeout, llamadas + 1, esperas.reverse⟩
    | .requestError msg =>
        if resto ≠ [] then
          bucleReintentos respuestas resto (llamadas + 1) (2 ^ intento :: esperas)
        else ⟨.errorConexion msg, llamadas + 1, esperas.reverse⟩
    | .unexpectedError msg => ⟨.errorInesperado msg, llamadas + 1, esperas.reverse⟩

/-- `consultar_magic_loops` after payload preparation (`api.py` lines
29-72): `serialLen` abstracts `len(json.dumps(payload, default=str))`;
when it exceeds `MAX_PAYLOAD_SIZE` the size error is returned with no
network attempt, otherwise the retry loop runs. -/
def consultarMagicLoops (payload : Obj) (serialLen : Obj → ℕ)
    (respuestas : ℕ → RespuestaHTTP) : Ejecucion :=
  if MAX_PAYLOAD_SIZE < serialLen payload then ⟨.errorTooLarge, 0, []⟩
  else bucleReintentos respuestas (List.range MAX_RETRIES) 0 []

/-! ## Claims about the loader and the numeric coercion -/

/-- C2: every non-numeric, empty or missing raw amount cell normalizes
to exactly `0.0` — both in the loader's
`pd.to_numeric(..., errors="coerce").fillna(0)` and in the app's
`limpiar_columnas_numericas` — while a valid numeric cell parses to its
value.  No exception escapes: both coercions are total functions. -/
theorem coercion_montos_invalidos_a_cero (q : ℚ) (s : String) :
    coerceValor (.numeric q) = q ∧ coerceValor (.texto s) = 0 ∧
    coerceValor .vacio = 0 ∧
    limpiarValorApp (.numeric q) = q ∧ limpiarValorApp (.texto s) = 0 ∧
    limpiarValorApp .vacio = 0 :=
  ⟨rfl, rfl, rfl, rfl, rfl, rfl⟩

/-- C3: rows whose date is unparseable (NaT) are excluded from the
canonical table before persistence — every persisted row has a non-null
date, every row with a parseable date is kept, and the persisted row
count is exactly the count of rows with parseable dates. -/
theorem filas_con_fecha_invalida_excluidas (t : TablaCruda) :
    (∀ c ∈ cargarTabla t, c.fecha ≠ none) ∧
    (∀ r ∈ t.filas, r.fecha ≠ none → mkCanonica t.tieneValor r ∈ cargarTabla t) ∧
    (cargarTabla t).length = (t.filas.filter (fun r => r.fecha.isSome)).length := by
  refine ⟨?_, ?_, ?_⟩
  · intro c hc
    simp only [cargarTabla, List.mem_map, List.mem_filter] at hc
    obtain ⟨r, ⟨_, hsome⟩, rfl⟩ := hc
    simpa [mkCanonica, Option.isSome_iff_ne_none] using hsome
  · intro r hr hsome
    exact List.mem_map_of_mem _
      (List.mem_filter.2 ⟨hr, by simpa [Option.isSome_iff_ne_none] using hsome⟩)
  · simp [cargarTabla]

/-- C9 counterexample: a surviving row whose raw amount cell holds the
negative number `-5` is persisted with amount `-5`, which is below
zero — the loader does not enforce non-negativity. -/
theorem monto_negativo_persistido :
    (cargarTabla ⟨[⟨some ⟨2023, 5, 1⟩, "FORD", .numeric (-5)⟩], true⟩).map
        (fun c => c.valor) = [some (-5)] ∧
    ((-5 : ℚ) < 0) := by
  constructor
  · rfl
  · norm_num

/-- C9 (amended): every persisted amount is the zero-fill coercion of
its raw cell — invalid or missing cells persist as `0`, numeric cells
persist as their parsed value, including negative ones; non-negativity
is not enforced. -/
theorem monto_persistido_es_coercion (t : TablaCruda) :
    (∀ c ∈ cargarTabla t, t.tieneValor = true →
      ∃ r ∈ t.filas, c.valor = some (coerceValor r.valor)) ∧
    (∀ q : ℚ, coerceValor (.numeric q) = q) ∧
    (∀ s : String, coerceValor (.texto s) = 0) ∧
    coerceValor .vacio = 0 := by
  refine ⟨?_, fun _ => rfl, fun _ => rfl, rfl⟩
  intro c hc ht
  simp only [cargarTabla, List.mem_map, List.mem_filter] at hc
  obtain ⟨r, ⟨hr, _⟩, rfl⟩ := hc
  exact ⟨r, hr, by simp [mkCanonica, ht]⟩

/-- C6 counterexample: when the amount column is entirely absent
(`tieneValor = false`), a surviving row is persisted with no amount
value at all (`none`), not with a zero-valued amount (`some 0`): the
canonical table does not carry a zero-valued amount column. -/
theorem columna_valor_ausente_sin_ceros :
    (cargarTabla ⟨[⟨some ⟨2023, 5, 1⟩, "FIAT", .vacio⟩], false⟩).map
        (fun c => c.valor) = [none] ∧
    (none : Option ℚ) ≠ some 0 :=
  ⟨rfl, by decide⟩

/-- C6 (amended): when the expected amount column is entirely absent the
loader logs a warning and completes without failing — every row with a
parseable date still survives — but the persisted rows carry no
canonical amount value (`none`) rather than an all-zero amount
column. -/
theorem columna_valor_ausente_no_falla (t : TablaCruda) :
    (∀ c ∈ cargarTabla t, t.tieneValor = false → c.valor = none) ∧
    (cargarTabla t).length = (t.filas.filter (fun r => r.fecha.isSome)).length := by
  refine ⟨?_, by simp [cargarTabla]⟩
  intro c hc ht
  simp only [cargarTabla, List.mem_map, List.mem_filter] at hc
  obtain ⟨r, _, rfl⟩ := hc
  simp [mkCanonica, ht]

/-! ## Claims about the aggregation engine -/

/-- C1 counterexample: for the series `[100, 0, 150]` with lag 1,
`calcular_pct_change_seguro` returns the numbers `0.0` at index 1 and
`50.0` at index 2 — not a "no data" marker at either position: the
pandas default `fill_method='pad'` forward-fills the NaN standing for
the zero with the preceding value `100` before dividing.  The MoM
column `calcular_variaciones_seguras` returns is `[0, 0, 50]`, so the
period-over-period change at index 1 is zero and at index 2 is `50%`,
both plain numbers. -/
theorem pct_change_valores_numericos_no_marcador :
    calcularPctChangeSeguro [100, 0, 150] 1 = [none, some 0, some 50] ∧
    (calcularVariacionesSeguras [100, 0, 150]).mom = [0, 0, 50] := by
  have h1 : calcularPctChangeSeguro [100, 0, 150] 1
      = [none, some (((100 : ℚ) - 100) / 100 * 100),
          some (((150 : ℚ) - 100) / 100 * 100)] := rfl
  have h2 : (calcularVariacionesSeguras [100, 0, 150]).mom
      = [0, ((100 : ℚ) - 100) / 100 * 100, ((150 : ℚ) - 100) / 100 * 100] := rfl
  constructor
  · rw [h1]; norm_num
  · rw [h2]; norm_num

/-- C1 (amended): the NaN "no data" marker survives in
`calcular_pct_change_seguro` only where no value is available at all —
in particular the first `lag` positions (insufficient history).  A zero
lag reference with an earlier non-zero value does not produce a marker:
line 206 replaces the zero with NaN, but `pct_change`'s default
`fill_method='pad'` forward-fills that NaN with the last preceding
non-zero value before dividing, so the result there is a plain number
(for `[100, 0, 150]` with lag 1: `0.0` at index 1 and `50.0` at index
2).  The final `limpiar_columnas_numericas` cleanup of
`calcular_variaciones_seguras` (lines 234-236) then replaces every
marker that does remain with `0.0`, so the returned variation columns
hold plain numbers everywhere — for `[100, 0, 150]` the returned MoM is
`[0, 0, 50]`. -/
theorem pct_change_pad_marcador_solo_sin_historia :
    (∀ (series : List ℚ) (periods i : ℕ), i < series.length → i < periods →
        (calcularPctChangeSeguro series periods).getD i (some 0) = none) ∧
    calcularPctChangeSeguro [100, 0, 150] 1 = [none, some 0, some 50] ∧
    (∀ raw : List (Option ℚ), ∀ j, raw.getD j (some 0) = none →
        (limpiarColumnaOpcional raw).getD j 1 = 0 ∨ raw.length ≤ j) ∧
    (calcularVariacionesSeguras [100, 0, 150]).mom = [0, 0, 50] := by
  refine ⟨?_, ?_, ?_, ?_⟩
  · intro series periods i hi h
    rw [calcularPctChangeSeguro, List.getD_eq_getElem?_getD, List.getElem?_map,
      List.getElem?_range hi]
    simp only [Option.map_some', Option.getD_some]
    rw [pctChangeEntry, if_neg (Nat.not_le.2 h)]
  · have h1 : calcularPctChangeSeguro [100, 0, 150] 1
        = [none, some (((100 : ℚ) - 100) / 100 * 100),
            some (((150 : ℚ) - 100) / 100 * 100)] := rfl
    rw [h1]; norm_num
  · intro raw j hj
    rcases Nat.lt_or_ge j raw.length with hlt | hge
    · left
      rw [limpiarColumnaOpcional, List.getD_eq_getElem?_getD, List.getElem?_map,
        List.getElem?_eq_getElem hlt]
      rw [List.getD_eq_getElem?_getD, List.getElem?_eq_getElem hlt] at hj
      simp only [Option.getD_some] at hj
      simp [hj]
    · exact Or.inr hge
  · have h2 : (calcularVariacionesSeguras [100, 0, 150]).mom
        = [0, ((100 : ℚ) - 100) / 100 * 100, ((150 : ℚ) - 100) / 100 * 100] := rfl
    rw [h2]; norm_num

/-- C8: in the YoY point-comparison mode of
`combinar_datos_actual_anterior`, the variation for a brand equals
`(value(Y,M) - value(Y-1,M)) / value(Y-1,M) * 100` when the prior-year
total is positive, and is `0` (by convention, not an error) when the
prior-year total is zero — in particular when the brand is wholly
missing from the prior year, since the sum over an empty selection is
zero. -/
theorem variacion_yoy_puntual_politica (rows : List FilaAgg) (a : ℤ) (mes : ℕ)
    (m : String) :
    (0 < sumMarca (filtrarMes rows (a - 1) mes) m →
      combinarVariacionYoY rows a mes m =
        (sumMarca (filtrarMes rows a mes) m - sumMarca (filtrarMes rows (a - 1) mes) m)
          / sumMarca (filtrarMes rows (a - 1) mes) m * 100) ∧
    (sumMarca (filtrarMes rows (a - 1) mes) m = 0 →
      combinarVariacionYoY rows a mes m = 0) := by
  constructor
  · intro h
    simp [combinarVariacionYoY, variacionYoYPuntual, h]
  · intro h
    simp [combinarVariacionYoY, variacionYoYPuntual, h]

/-- C7 counterexample: for the rows `[("B", 5), ("A", 5)]` — brand `B`
first in original row order, totals tied at 5 — the Top-N output lists
`A` first: the tie is not broken by original row order (which would put
`B` first), but by the ascending brand-name order `groupby` imposes. -/
theorem topn_empate_no_por_orden_de_filas :
    crearGraficoMarcas [⟨"B", 5⟩, ⟨"A", 5⟩] = [("A", 5), ("B", 5)] ∧
    crearGraficoMarcas [⟨"B", 5⟩, ⟨"A", 5⟩] ≠ [("B", 5), ("A", 5)] := by
  have h1 : groupbySumMarca [⟨"B", 5⟩, ⟨"A", 5⟩] = [("A", 5), ("B", 5)] := by
    show [("A", [(5 : ℚ)].sum), ("B", [(5 : ℚ)].sum)] = [("A", 5), ("B", 5)]
    simp
  constructor
  · rw [crearGraficoMarcas, h1]; decide
  · rw [crearGraficoMarcas, h1]; decide

/-- C7 (amended): Top-N by brand groups rows by brand, sums the
amounts, sorts descending by total and takes the first 10; `groupby`
lists the brands in ascending name order, discarding the original row
order, so tied totals are ordered by brand name — and consequently the
Top-N output is invariant under any reordering of the input rows, tied
or not.  The output is sorted descending by total. -/
theorem topn_marcas_invariante_y_ordenado :
    (∀ rows₁ rows₂ : List FilaMarca, rows₁.Perm rows₂ →
        crearGraficoMarcas rows₁ = crearGraficoMarcas rows₂) ∧
    (∀ rows : List FilaMarca,
        (crearGraficoMarcas rows).Sorted (fun a b => b.2 ≤ a.2)) := by
  constructor
  · have hg : ∀ rows₁ rows₂ : List FilaMarca, rows₁.Perm rows₂ →
        groupbySumMarca rows₁ = groupbySumMarca rows₂ := by
      intro r1 r2 h
      rw [groupbySumMarca, groupbySumMarca]
      have hkeys : ((r1.map (·.marca)).dedup).insertionSort leMarca
          = ((r2.map (·.marca)).dedup).insertionSort leMarca := by
        refine List.eq_of_perm_of_sorted ?_ (List.sorted_insertionSort _ _)
          (List.sorted_insertionSort _ _)
        exact (List.perm_insertionSort leMarca _).trans
          (((h.map _).dedup).trans (List.perm_insertionSort leMarca _).symm)
      rw [hkeys]
      refine List.map_congr_left fun k _ => ?_
      exact congrArg (fun t => (k, t)) ((h.filter _).map _).sum_eq
    intro r1 r2 h
    rw [crearGraficoMarcas, crearGraficoMarcas, hg r1 r2 h]
  · intro rows
    haveI ht : IsTotal (String × ℚ) (fun a b => b.2 ≤ a.2) :=
      ⟨fun a b => le_total b.2 a.2⟩
    haveI htr : IsTrans (String × ℚ) (fun a b => b.2 ≤ a.2) :=
      ⟨fun _ _ _ hab hbc => le_trans hbc hab⟩
    exact (List.sorted_insertionSort _ _).sublist (List.take_sublist _ _)

/-! ## Claims about the remote query client -/

/-- C4: when the serialized payload exceeds the 500 000-byte ceiling,
`consultar_magic_loops` returns the payload-too-large error with zero
network calls; when the size is at or under the ceiling, the size check
does not reject it and the retry loop runs. -/
theorem payload_grande_sin_red (payload : Obj) (serialLen : Obj → ℕ)
    (respuestas : ℕ → RespuestaHTTP) :
    (MAX_PAYLOAD_SIZE < serialLen payload →
      consultarMagicLoops payload serialLen respuestas =
        ⟨.errorTooLarge, 0, []⟩) ∧
    (serialLen payload ≤ MAX_PAYLOAD_SIZE →
      consultarMagicLoops payload serialLen respuestas =
        bucleReintentos respuestas (List.range MAX_RETRIES) 0 []) := by
  constructor
  · intro h; rw [consultarMagicLoops, if_pos h]
  · intro h; rw [consultarMagicLoops, if_neg (Nat.not_lt.2 h)]

/-- C5: when every attempt comes back with the same non-200 HTTP status
`c`, the client makes exactly 3 network calls, sleeps `2^0 = 1` second
after the first failure and `2^1 = 2` seconds after the second (none
after the final attempt), and returns the typed HTTP error carrying
`c` rather than raising. -/
theorem http_error_tres_intentos (payload : Obj) (serialLen : Obj → ℕ)
    (respuestas : ℕ → RespuestaHTTP) (c : ℕ) (bodies : ℕ → String)
    (hsize : serialLen payload ≤ MAX_PAYLOAD_SIZE) (hc : c ≠ 200)
    (hresp : ∀ i < MAX_RETRIES, respuestas i = .status c (bodies i)) :
    consultarMagicLoops payload serialLen respuestas =
      ⟨.errorHTTP c, 3, [1, 2]⟩ := by
  rw [consultarMagicLoops, if_neg (Nat.not_lt.2 hsize)]
  have h0 := hresp 0 (by norm_num [MAX_RETRIES])
  have h1 := hresp 1 (by norm_num [MAX_RETRIES])
  have h2 := hresp 2 (by norm_num [MAX_RETRIES])
  have hr : List.range MAX_RETRIES = [0, 1, 2] := by decide
  rw [hr]
  simp [bucleReintentos, h0, h1, h2, hc]

/-- C5 witness: the scenario at HTTP 500 on all three attempts. -/
theorem http_error_tres_intentos_witness :
    consultarMagicLoops [] (fun _ => 0) (fun _ => .status 500 "") =
      ⟨.errorHTTP 500, 3, [1, 2]⟩ :=
  http_error_tres_intentos [] (fun _ => 0) (fun _ => .status 500 "") 500
    (fun _ => "") (by decide) (by decide) (fun _ _ => rfl)

/-- C10: `consultar_magic_loops` never mutates the caller's `datos`
dictionary — the payload is a copy, and the trimmed question is written
to the copy only — and a non-dict `datos` is wrapped as
`{"data": datos}` rather than rejected. -/
theorem preparar_payload_no_muta_datos (store : Store) (pregunta : Option String) :
    (∀ r, r < store.length →
        (prepararPayload store (.dictRef r) pregunta).1.getD r [] = store.getD r []) ∧
    (∀ v : Val,
        dictGet ((prepararPayload store (.scalar v) pregunta).1.getD
          (prepararPayload store (.scalar v) pregunta).2 []) "data" = some v) := by
  have happ : ∀ (obj : Obj) (r : ℕ), r < store.length →
      (store ++ [obj]).getD r [] = store.getD r [] := by
    intro obj r hr
    rw [List.getD_eq_getElem?_getD, List.getD_eq_getElem?_getD,
      List.getElem?_append_left hr]
  have hset : ∀ (l : Store) (i r : ℕ) (x : Obj), r ≠ i →
      (l.set i x).getD r [] = l.getD r [] := by
    intro l i r x hne
    rw [List.getD_eq_getElem?_getD, List.getD_eq_getElem?_getD,
      List.getElem?_set_ne (Ne.symm hne)]
  constructor
  · intro r hr
    have hrne : r ≠ store.length := Nat.ne_of_lt hr
    rw [prepararPayload.eq_def]
    cases pregunta with
    | none => exact happ _ r hr
    | some p =>
        by_cases hp : p.trim ≠ ""
        · simp only [if_pos hp]
          rw [hset _ _ _ _ hrne]
          exact happ _ r hr
        · simp only [if_neg hp]
          exact happ _ r hr
  · intro v
    have hlen : ∀ obj : Obj, (store ++ [obj]).getD store.length [] = obj := by
      intro obj
      rw [List.getD_eq_getElem?_getD, List.getElem?_concat_length]
      rfl
    have hget : ∀ w, dictGet (dictSet [("data", v)] "pregunta" w) "data" = some v := by
      intro w
      simp [dictGet, dictSet]
    rw [prepararPayload.eq_def]
    cases pregunta with
    | none => rw [hlen]; simp [dictGet]
    | some p =>
        by_cases hp : p.trim ≠ ""
        · simp only [if_pos hp]
          have : ((store ++ [[("data", v)]]).set store.length
              (dictSet [("data", v)] "pregunta" (.str p.trim))).getD store.length []
              = dictSet [("data", v)] "pregunta" (.str p.trim) := by
            rw [List.getD_eq_getElem?_getD,
              List.getElem?_set_eq_of_lt _ (by simp)]
            rfl
          rw [this, hget]
        · simp only [if_neg hp]
          rw [hlen]; simp [dictGet]

end StaRosaAM
